import Mathlib

/-!
Shallow embedding of the header-only scalar activation-function library
`src/include/math-functions.hpp` (namespace `fn_math`), with theorems
checking the specification's claims against it.

The C++ functions are templates over a floating-point scalar type
(default `double`) computing closed-form real formulas via `<cmath>`.
They are embedded here as functions over `ℝ`, the mathematical content
of the code, keeping the source's names.
-/

namespace fn_math

open Real

/-- Source function `BinaryStepFn`, from the source: `return x < 0 ? 0 : 1;`
(returns an `unsigned short`, embedded as `ℕ`). -/
noncomputable def BinaryStepFn (x : ℝ) : ℕ :=
if x < 0 then 0 else 1

/-- Source function `ExponentialLinearUnitFn`, from the source:
`return x > 0 ? x : a * (std::exp(x) - 1);` -/
noncomputable def ExponentialLinearUnitFn (a x : ℝ) : ℝ :=
if 0 < x then x else a * (Real.exp x - 1)

/-- Source function `GaussianFn`, from the source: `return std::exp(-std::pow(x, 2));` -/
noncomputable def GaussianFn (x : ℝ) : ℝ :=
Real.exp (-(x ^ 2))

/-- The error function `erf`, the mathematical function computed by
`std::erf` from `<cmath>`: `(2/√π) ∫ t in 0..x, exp (-t²)`. -/
noncomputable def erf (x : ℝ) : ℝ :=
(2 / Real.sqrt Real.pi) * ∫ t in (0 : ℝ)..x, Real.exp (-(t ^ 2))

/-- Source function `GaussianErrorLinearUnitFn`, from the source:
`return 1.0 / 2.0 * x * (1 + std::erf(x / std::sqrt(2)));` -/
noncomputable def GaussianErrorLinearUnitFn (x : ℝ) : ℝ :=
1 / 2 * x * (1 + erf (x / Real.sqrt 2))

/-- Source function `GaussianRBFFn`, from the source:
`return std::exp(-std::pow(x - c, 2) / (2 * std::pow(sigma, 2)));` -/
noncomputable def GaussianRBFFn (x c sigma : ℝ) : ℝ :=
Real.exp (-(x - c) ^ 2 / (2 * sigma ^ 2))

/-- Source function `HeavisideFn`, from the source: `return (a * x + b > 0) ? 1 : 0;` -/
noncomputable def HeavisideFn (a x b : ℝ) : ℝ :=
if 0 < a * x + b then 1 else 0

/-- Source function `HyperbolicTangentFn`, from the source:
`return (std::exp(x) - std::exp(-x)) / (std::exp(x) + std::exp(-x));` -/
noncomputable def HyperbolicTangentFn (x : ℝ) : ℝ :=
(Real.exp x - Real.exp (-x)) / (Real.exp x + Real.exp (-x))

/-- Source function `IdentityFn`, from the source: `return x;` -/
def IdentityFn (x : ℝ) : ℝ :=
x

/-- Source function `LeakyRectifiedLinearUnitFn`, from the source:
`return x < 0 ? 0.01 * x : x;` -/
noncomputable def LeakyRectifiedLinearUnitFn (x : ℝ) : ℝ :=
if x < 0 then 0.01 * x else x

/-- Source function `LinearFn`, from the source: `return a * x + b;` -/
def LinearFn (a x b : ℝ) : ℝ :=
a * x + b

/-- Source function `LogisticFn`, from the source: `return 1 / (1 + std::exp(-x));` -/
noncomputable def LogisticFn (x : ℝ) : ℝ :=
1 / (1 + Real.exp (-x))

/-- Modelled from the spec: the source body of `MaxoutFn`
(`return std::max_element(x.begin, x.end);`) is ill-formed C++ — it
passes the member-function pointers `begin`/`end` instead of the
iterators `x.begin()`/`x.end()` and returns the result without
dereferencing — and the spec (§7, §9) records this as a latent defect
whose intended behavior is "return the maximum element of the sequence,
failing with an invalid-argument error on an empty sequence".  This
definition embeds that intended behavior: `none` signals the
invalid-argument failure on an empty sequence. -/
def MaxoutFn : List ℝ → Option ℝ
| [] => none
| h :: t => some (t.foldl max h)

/-- Source function `MishFn`, from the source:
`return x * std::tanh(std::log(1 + std::exp(x)));` -/
noncomputable def MishFn (x : ℝ) : ℝ :=
x * Real.tanh (Real.log (1 + Real.exp x))

/-- Source function `MultiquadraticsFn`, from the source:
`return std::sqrt(std::pow(x - c, 2) + std::pow(a, 2));` -/
noncomputable def MultiquadraticsFn (x c a : ℝ) : ℝ :=
Real.sqrt ((x - c) ^ 2 + a ^ 2)

/-- Source function `ParametricRectifiedLinearUnitFn`, from the source:
`return x < 0 ? a * x : x;` -/
noncomputable def ParametricRectifiedLinearUnitFn (a x : ℝ) : ℝ :=
if x < 0 then a * x else x

/-- Source function `RectifiedLinearUnitFn`, from the source: `return x > 0 ? x : 0;` -/
noncomputable def RectifiedLinearUnitFn (x : ℝ) : ℝ :=
if 0 < x then x else 0

/-- Source function `ScaledExponentialLinearUnitFn`, from the source:
`return (x < 0) ? 1.0507 * 1.67326 * (std::exp(x) - 1) : 1.0507 * x;` -/
noncomputable def ScaledExponentialLinearUnitFn (x : ℝ) : ℝ :=
if x < 0 then 1.0507 * 1.67326 * (Real.exp x - 1) else 1.0507 * x

/-- Source function `SigmoidLinearUnitFn`, from the source:
`return x / (1 + std::exp(-x));` -/
noncomputable def SigmoidLinearUnitFn (x : ℝ) : ℝ :=
x / (1 + Real.exp (-x))

/-- Source function `SoftplusFn`, from the source: `return std::log(1 + std::exp(x));` -/
noncomputable def SoftplusFn (x : ℝ) : ℝ :=
Real.log (1 + Real.exp x)

end fn_math

namespace fn_math

/-- C3: for every scalar `x`, `RectifiedLinearUnitFn x` is `0` when
`x ≤ 0` and `x` when `0 < x`; concretely ReLU(-1)=0, ReLU(0)=0,
ReLU(3.5)=3.5. -/
theorem relu_piecewise :
    (∀ x : ℝ, x ≤ 0 → RectifiedLinearUnitFn x = 0) ∧
    (∀ x : ℝ, 0 < x → RectifiedLinearUnitFn x = x) ∧
    RectifiedLinearUnitFn (-1) = 0 ∧
    RectifiedLinearUnitFn 0 = 0 ∧
    RectifiedLinearUnitFn 3.5 = 3.5 := by
  refine ⟨fun x hx => ?_, fun x hx => ?_, ?_, ?_, ?_⟩
  · simp [RectifiedLinearUnitFn, not_lt.mpr hx]
  · simp [RectifiedLinearUnitFn, hx]
  · norm_num [RectifiedLinearUnitFn]
  · norm_num [RectifiedLinearUnitFn]
  · norm_num [RectifiedLinearUnitFn]

/-- Witness for C3: the general branches of `relu_piecewise` applied at
the concrete inputs `-1` and `1`. -/
theorem relu_piecewise_witness :
    RectifiedLinearUnitFn (-1) = 0 ∧ RectifiedLinearUnitFn 1 = 1 :=
  ⟨relu_piecewise.1 (-1) (by norm_num), relu_piecewise.2.1 1 (by norm_num)⟩

/-- C4: for every scalar `x`, `BinaryStepFn x` is `0` when `x < 0` and
`1` when `0 ≤ x` (zero maps to the `1` branch); concretely
BinaryStep(-0.001)=0, BinaryStep(0)=1, BinaryStep(5)=1. -/
theorem binary_step_piecewise :
    (∀ x : ℝ, x < 0 → BinaryStepFn x = 0) ∧
    (∀ x : ℝ, 0 ≤ x → BinaryStepFn x = 1) ∧
    BinaryStepFn (-0.001) = 0 ∧
    BinaryStepFn 0 = 1 ∧
    BinaryStepFn 5 = 1 := by
  refine ⟨fun x hx => ?_, fun x hx => ?_, ?_, ?_, ?_⟩
  · simp [BinaryStepFn, hx]
  · simp [BinaryStepFn, not_lt.mpr hx]
  · norm_num [BinaryStepFn]
  · norm_num [BinaryStepFn]
  · norm_num [BinaryStepFn]

/-- Witness for C4: the general branches of `binary_step_piecewise`
applied at the concrete inputs `-1` and `0`. -/
theorem binary_step_piecewise_witness :
    BinaryStepFn (-1) = 0 ∧ BinaryStepFn 0 = 1 :=
  ⟨binary_step_piecewise.1 (-1) (by norm_num),
   binary_step_piecewise.2.1 0 le_rfl⟩

/-- Folding `max` over a list starting from `a` lands on `a` or on a
list element. -/
theorem foldl_max_mem_cons (a : ℝ) (l : List ℝ) :
    l.foldl max a = a ∨ l.foldl max a ∈ l := by
  induction l generalizing a with
  | nil => exact Or.inl rfl
  | cons b t ih =>
    rcases ih (max a b) with h | h
    · rcases max_choice a b with hab | hab
      · exact Or.inl (h.trans hab)
      · exact Or.inr (List.mem_cons.mpr (Or.inl (h.trans hab)))
    · exact Or.inr (List.mem_cons.mpr (Or.inr h))

/-- The starting value is a lower bound of a `max`-fold. -/
theorem le_foldl_max (a : ℝ) (l : List ℝ) : a ≤ l.foldl max a := by
  induction l generalizing a with
  | nil => exact le_rfl
  | cons b t ih => exact le_trans (le_max_left a b) (ih (max a b))

/-- Every list element is a lower bound of a `max`-fold over the list. -/
theorem mem_le_foldl_max (a y : ℝ) (l : List ℝ) (hy : y ∈ l) :
    y ≤ l.foldl max a := by
  induction l generalizing a with
  | nil => cases hy
  | cons b t ih =>
    rcases List.mem_cons.mp hy with rfl | h
    · exact le_trans (le_max_right a y) (le_foldl_max (max a y) t)
    · exact ih (max a b) h

/-- C1: on the spec-intended `MaxoutFn` (the source body is ill-formed,
see the definition's comment), every non-empty sequence yields `some`
of an element that bounds the whole sequence from above; in particular
`MaxoutFn [3,1,4,1,5,9,2,6] = some 9`. -/
theorem maxout_max_element :
    (∀ (h : ℝ) (t : List ℝ), ∃ m, MaxoutFn (h :: t) = some m ∧
      m ∈ h :: t ∧ ∀ y ∈ h :: t, y ≤ m) ∧
    MaxoutFn [3, 1, 4, 1, 5, 9, 2, 6] = some 9 := by
  constructor
  · intro h t
    refine ⟨t.foldl max h, rfl, ?_, ?_⟩
    · rcases foldl_max_mem_cons h t with hm | hm
      · rw [hm]; exact List.mem_cons_self h t
      · exact List.mem_cons_of_mem h hm
    · intro y hy
      rcases List.mem_cons.mp hy with rfl | hy
      · exact le_foldl_max y t
      · exact mem_le_foldl_max h y t hy
  · show some (List.foldl max (3 : ℝ) [1, 4, 1, 5, 9, 2, 6]) = some 9
    norm_num [List.foldl, max_def]

/-- C2: on the spec-intended `MaxoutFn`, the invalid-argument failure
(`none`) occurs exactly on the empty sequence: `MaxoutFn l = none ↔
l = []`, so every non-empty sequence succeeds with `some` value. -/
theorem maxout_none_iff_empty :
    ∀ l : List ℝ, MaxoutFn l = none ↔ l = [] := by
  intro l
  cases l with
  | nil => simp [MaxoutFn]
  | cons h t => simp [MaxoutFn]

/-- C5: `SoftplusFn` strictly dominates `RectifiedLinearUnitFn`
everywhere: `ln (1 + eˣ) > max 0 x` for every real `x`. -/
theorem softplus_gt_relu :
    ∀ x : ℝ, RectifiedLinearUnitFn x < SoftplusFn x := by
  intro x
  unfold RectifiedLinearUnitFn SoftplusFn
  by_cases hx : 0 < x
  · rw [if_pos hx]
    calc x = Real.log (Real.exp x) := (Real.log_exp x).symm
    _ < Real.log (1 + Real.exp x) :=
        Real.log_lt_log (Real.exp_pos x) (by linarith)
  · rw [if_neg hx]
    exact Real.log_pos (by linarith [Real.exp_pos x])

/-- C6: `ScaledExponentialLinearUnitFn 0 = 0`; for `0 ≤ x` it returns
exactly `1.0507 * x`, and for `x < 0` it returns
`1.0507 * 1.67326 * (eˣ - 1)`, with the constants fixed. -/
theorem selu_piecewise :
    ScaledExponentialLinearUnitFn 0 = 0 ∧
    (∀ x : ℝ, 0 ≤ x → ScaledExponentialLinearUnitFn x = 1.0507 * x) ∧
    (∀ x : ℝ, x < 0 →
      ScaledExponentialLinearUnitFn x =
        1.0507 * 1.67326 * (Real.exp x - 1)) := by
  refine ⟨?_, fun x hx => ?_, fun x hx => ?_⟩
  · norm_num [ScaledExponentialLinearUnitFn]
  · simp [ScaledExponentialLinearUnitFn, not_lt.mpr hx]
  · simp [ScaledExponentialLinearUnitFn, hx]

/-- Witness for C6: the general branches of `selu_piecewise` applied at
the concrete inputs `2` and `-1`. -/
theorem selu_piecewise_witness :
    ScaledExponentialLinearUnitFn 2 = 1.0507 * 2 ∧
    ScaledExponentialLinearUnitFn (-1) =
      1.0507 * 1.67326 * (Real.exp (-1) - 1) :=
  ⟨selu_piecewise.2.1 2 (by norm_num), selu_piecewise.2.2 (-1) (by norm_num)⟩

/-- C7: `HyperbolicTangentFn 0 = 0` and `HyperbolicTangentFn` is odd:
`HyperbolicTangentFn (-x) = -HyperbolicTangentFn x` for every `x`. -/
theorem tanh_zero_and_odd :
    HyperbolicTangentFn 0 = 0 ∧
    ∀ x : ℝ, HyperbolicTangentFn (-x) = -HyperbolicTangentFn x := by
  constructor
  · simp [HyperbolicTangentFn]
  · intro x
    unfold HyperbolicTangentFn
    rw [neg_neg, add_comm (Real.exp (-x)), ← neg_sub (Real.exp x), neg_div]

/-- C9: `SigmoidLinearUnitFn` is exactly the input times the library's
own `LogisticFn`: `x / (1 + e⁻ˣ) = x * (1 / (1 + e⁻ˣ))`. -/
theorem silu_eq_mul_logistic :
    ∀ x : ℝ, SigmoidLinearUnitFn x = x * LogisticFn x := by
  intro x
  unfold SigmoidLinearUnitFn LogisticFn
  rw [mul_one_div]

/-- C10: `MultiquadraticsFn x c a = √((x-c)² + a²)` is at least `|a|`,
and in particular non-negative, for all scalars `x`, `c`, `a`. -/
theorem multiquadratics_ge_abs :
    ∀ x c a : ℝ, |a| ≤ MultiquadraticsFn x c a ∧
      0 ≤ MultiquadraticsFn x c a := by
  intro x c a
  constructor
  · calc |a| = Real.sqrt (a ^ 2) := (Real.sqrt_sq_eq_abs a).symm
    _ ≤ MultiquadraticsFn x c a :=
        Real.sqrt_le_sqrt (by nlinarith [sq_nonneg (x - c)])
  · exact Real.sqrt_nonneg _

/-- C8: every function of the library is a deterministic pure mapping:
two calls with identical inputs give identical outputs. -/
theorem fn_math_deterministic :
    (∀ x y : ℝ, x = y → BinaryStepFn x = BinaryStepFn y) ∧
    (∀ a x b y : ℝ, a = b → x = y →
      ExponentialLinearUnitFn a x = ExponentialLinearUnitFn b y) ∧
    (∀ x y : ℝ, x = y → GaussianFn x = GaussianFn y) ∧
    (∀ x y : ℝ, x = y →
      GaussianErrorLinearUnitFn x = GaussianErrorLinearUnitFn y) ∧
    (∀ x c s x' c' s' : ℝ, x = x' → c = c' → s = s' →
      GaussianRBFFn x c s = GaussianRBFFn x' c' s') ∧
    (∀ a x b a' x' b' : ℝ, a = a' → x = x' → b = b' →
      HeavisideFn a x b = HeavisideFn a' x' b') ∧
    (∀ x y : ℝ, x = y → HyperbolicTangentFn x = HyperbolicTangentFn y) ∧
    (∀ x y : ℝ, x = y → IdentityFn x = IdentityFn y) ∧
    (∀ x y : ℝ, x = y →
      LeakyRectifiedLinearUnitFn x = LeakyRectifiedLinearUnitFn y) ∧
    (∀ a x b a' x' b' : ℝ, a = a' → x = x' → b = b' →
      LinearFn a x b = LinearFn a' x' b') ∧
    (∀ x y : ℝ, x = y → LogisticFn x = LogisticFn y) ∧
    (∀ l l' : List ℝ, l = l' → MaxoutFn l = MaxoutFn l') ∧
    (∀ x y : ℝ, x = y → MishFn x = MishFn y) ∧
    (∀ x c a x' c' a' : ℝ, x = x' → c = c' → a = a' →
      MultiquadraticsFn x c a = MultiquadraticsFn x' c' a') ∧
    (∀ a x a' x' : ℝ, a = a' → x = x' →
      ParametricRectifiedLinearUnitFn a x =
        ParametricRectifiedLinearUnitFn a' x') ∧
    (∀ x y : ℝ, x = y →
      RectifiedLinearUnitFn x = RectifiedLinearUnitFn y) ∧
    (∀ x y : ℝ, x = y →
      ScaledExponentialLinearUnitFn x = ScaledExponentialLinearUnitFn y) ∧
    (∀ x y : ℝ, x = y → SigmoidLinearUnitFn x = SigmoidLinearUnitFn y) ∧
    (∀ x y : ℝ, x = y → SoftplusFn x = SoftplusFn y) := by
  refine ⟨?_, ?_, ?_, ?_, ?_, ?_, ?_, ?_, ?_, ?_, ?_, ?_, ?_, ?_, ?_,
    ?_, ?_, ?_, ?_⟩ <;> intros <;> subst_vars <;> rfl

/-- Witness for C8: determinism of `RectifiedLinearUnitFn` from
`fn_math_deterministic` at the concrete input `1`. -/
theorem fn_math_deterministic_witness :
    RectifiedLinearUnitFn 1 = RectifiedLinearUnitFn 1 :=
  fn_math_deterministic.2.2.2.2.2.2.2.2.2.2.2.2.2.2.2.1 1 1 rfl

end fn_math
